import Mathlib

/-!
Verification development for the Uni_Helper ingestion-and-processing
pipeline.  The Python sources are shallowly embedded: pure control flow
becomes Lean functions, stateful loops become step functions over explicit
state records, Python exceptions become `Except` values, and external
library calls (the IMAP transport, `json.loads`, `datetime.fromisoformat`,
`strftime`, the llama backend, the SQLite layer) become explicit
parameters or enumerated outcomes, so that every branch of the embedded
code is the image of a branch of the source.
-/

/-- Python/JSON values, as produced by `json.loads` and consumed by the
pipeline.  Objects are association lists in insertion order. -/
inductive JVal where
  | null : JVal
  | bool : Bool → JVal
  | num : ℚ → JVal
  | str : String → JVal
  | arr : List JVal → JVal
  | obj : List (String × JVal) → JVal

/-- Python exceptions that the embedded code can raise. -/
inductive PyErr where
  | keyError : String → PyErr
  | typeError : PyErr
  | attrError : PyErr
deriving DecidableEq

/-- First binding of a key in an association list (Python dict lookup on
the dicts produced by `json.loads`; keys there are unique, first match is
faithful). -/
def jlookup (fields : List (String × JVal)) (k : String) : Option JVal :=
  match fields with
  | [] => none
  | (k2, v) :: rest => if k2 = k then some v else jlookup rest k

/-- Python `d.get(k)` with default `None`: `AttributeError` when the value
is not a dict, otherwise an optional lookup. -/
def pyGet (v : JVal) (k : String) : Except PyErr (Option JVal) :=
  match v with
  | .obj fields => .ok (jlookup fields k)
  | _ => .error .attrError

/-- Python `d[k]`: `KeyError` when the key is missing, `TypeError` when
the value is not a dict. -/
def pyItem (v : JVal) (k : String) : Except PyErr JVal :=
  match v with
  | .obj fields =>
    match jlookup fields k with
    | some w => .ok w
    | none => .error (.keyError k)
  | _ => .error .typeError

/-- Python truthiness of a value (the `if not entities.get(key)` tests). -/
def truthy (v : JVal) : Bool :=
  match v with
  | .null => false
  | .bool b => b
  | .num q => q ≠ 0
  | .str s => s ≠ ""
  | .arr xs => !xs.isEmpty
  | .obj fields => !fields.isEmpty

/-- Python equality test between a value and a string literal
(the `time_filter == "today"` style comparisons in `process_query`). -/
def jeqStr (v : JVal) (s : String) : Bool :=
  match v with
  | .str t => t = s
  | _ => false

/-- Python `s[:n]` on strings, by code points. -/
def strTake (s : String) (n : Nat) : String :=
  String.mk (s.toList.take n)

/-- Needle is a prefix of hay (character lists). -/
def lPre : List Char → List Char → Bool
  | [], _ => true
  | _ :: _, [] => false
  | a :: n, b :: h => a = b && lPre n h

/-- Python substring test `needle in hay` on character lists. -/
def hasSub (needle : List Char) : List Char → Bool
  | [] => lPre needle []
  | c :: rest => lPre needle (c :: rest) || hasSub needle rest

/-- Python `needle in hay.lower()` on strings: case-insensitive substring
containment, lowering the hay (the needles used by the source are already
lowercase). -/
def strContainsSub (hay needle : String) : Bool :=
  hasSub needle.toList (hay.toList.map Char.toLower)

/-- Embedding of `LocalModelManager._get_fallback_structure`: fallback dictionary chosen
by first-match keyword sniffing over the lowercased concatenation of the
two prompts. -/
def get_fallback_structure (system_prompt user_prompt : String) : JVal :=
  let combined := system_prompt ++ " " ++ user_prompt
  if strContainsSub combined "intent" || strContainsSub combined "classify" then
    .obj [("intent", .str "GENERAL"),
          ("confidence", .num (3/10)),
          ("reasoning", .str "Fallback - model failed to classify")]
  else if strContainsSub combined "due_date" || strContainsSub combined "assignment" then
    .obj [("class_name", .null),
          ("due_date", .null),
          ("title", .str "Untitled Assignment"),
          ("description", .null),
          ("priority", .str "medium")]
  else if strContainsSub combined "note" then
    .obj [("class_name", .null),
          ("content", if user_prompt ≠ "" then .str (strTake user_prompt 200)
                      else .str "Note content unavailable"),
          ("note_type", .str "general"),
          ("tags", .arr [])]
  else if strContainsSub combined "query" then
    .obj [("query_type", .str "general"),
          ("search_term", .str ""),
          ("filters", .obj [])]
  else
    .obj [("error", .str "parsing_failed"),
          ("raw_prompt", .str (strTake user_prompt 100))]

/-- Attempt loop of `LocalModelManager.generate_json`.  `parsedResp i` is
the result of `json.loads` applied to the cleaned text of backend call
number `i` (`none` for a `JSONDecodeError`; the backend itself never
raises here because `generate` swallows its own exceptions).  `k` is the
number of attempts still available, `i` the index of the next attempt.
Returns the produced value together with the number of backend calls
made.  The `k = 0` case is the unreachable `return {}` after the loop. -/
def generate_json_go (parsedResp : Nat → Option JVal) (fallback : JVal) :
    Nat → Nat → JVal × Nat
  | 0, i => (.obj [], i)
  | k + 1, i =>
    match parsedResp i with
    | some v => (v, i + 1)
    | none =>
      match k with
      | 0 => (fallback, i + 1)
      | k2 + 1 => generate_json_go parsedResp fallback (k2 + 1) (i + 1)

/-- Embedding of `LocalModelManager.generate_json`: up to `retries + 1` attempts, each
parsing one backend response; on the final parse failure the keyword
fallback is returned.  Result value paired with the backend call count. -/
def generate_json (parsedResp : Nat → Option JVal)
    (system_prompt user_prompt : String) (retries : Nat) : JVal × Nat :=
  generate_json_go parsedResp (get_fallback_structure system_prompt user_prompt)
    (retries + 1) 0

/-- Exceptions that can be raised by the IMAP library calls inside
`EmailPoller.get_unread_emails`.  `connErr` and `osErr` are listed
separately even though `ConnectionError` and `ssl.SSLError` are `OSError`
subclasses, because the source names all four in one `except` tuple. -/
inductive PyExc where
  | sslError : PyExc
  | imap4Abort : PyExc
  | connErr : PyExc
  | osErr : PyExc
  | otherExc : PyExc
deriving DecidableEq

/-- Whether an exception is caught by the transport clause
`except (ssl.SSLError, imaplib.IMAP4.abort, ConnectionError, OSError)`
of `get_unread_emails` (the remaining clause catches everything else). -/
def isTransportExc (e : PyExc) : Bool :=
  match e with
  | .sslError => true
  | .imap4Abort => true
  | .connErr => true
  | .osErr => true
  | .otherExc => false

/-- Behaviour of the IMAP session during one `get_unread_emails` call:
either some library call raises, or the UNSEEN search completes with a
status and a list of fetched message ids. -/
inductive FetchInput where
  | raise : PyExc → FetchInput
  | search : Bool → List Nat → FetchInput

/-- Embedding of `EmailPoller.get_unread_emails`: transport exceptions return `None`
(the reconnect signal), every other exception and a non-OK search status
return the empty list, an OK search returns the fetched messages. -/
def get_unread_emails (input : FetchInput) : Option (List Nat) :=
  match input with
  | .raise e => if isTransportExc e then none else some []
  | .search ok ids => if ok then some ids else some []

/-- Per-message loop of `EmailPoller.poll`: skip messages the
`is_processed_callback` accepts, otherwise run the handler inside the
per-message `try`, recording whether it succeeded; a handler exception is
caught and the loop continues with the rest of the batch. -/
def pollBatch (isProcessed : Nat → Bool) (handler : Nat → Except Unit Unit) :
    List Nat → List (Nat × Bool)
  | [] => []
  | m :: rest =>
    if isProcessed m then pollBatch isProcessed handler rest
    else (m, (handler m).toBool) :: pollBatch isProcessed handler rest

/-- Embedding of `EmailPoller.poll`: `False` exactly when `get_unread_emails` signalled
a transport error with `None`; otherwise the batch is processed and the
poll reports success.  Also returns the per-message outcomes. -/
def pollOnce (fetched : Option (List Nat)) (isProcessed : Nat → Bool)
    (handler : Nat → Except Unit Unit) : Bool × List (Nat × Bool) :=
  match fetched with
  | none => (false, [])
  | some msgs => (true, pollBatch isProcessed handler msgs)

/-- State of the `start_polling` loop.  `waits` records every
`time.sleep(retry_delay)` performed before a reconnect attempt, in order;
`reconnects` counts `self.connect()` calls made by the loop. -/
structure LoopState where
  poll_count : Nat
  consecutive_failures : Nat
  retry_delay : Nat
  is_running : Bool
  waits : List Nat
  reconnects : Nat
deriving DecidableEq

/-- Initial loop state of `start_polling` (lines 192-199). -/
def initLoopState : LoopState :=
  { poll_count := 0, consecutive_failures := 0, retry_delay := 5,
    is_running := true, waits := [], reconnects := 0 }

/-- One iteration of the `start_polling` body, by observable outcome:
`poll ok reconnectOk` is a completed `self.poll` call returning `ok`
(with `reconnectOk` the result of `self.connect()` if a reconnect is
attempted), `unexpected reconnectOk` is the generic `except Exception`
branch, `interrupt` is `KeyboardInterrupt`. -/
inductive CycleIn where
  | poll : Bool → Bool → CycleIn
  | unexpected : Bool → CycleIn
  | interrupt : CycleIn

/-- The `max_retry_delay` field set in `EmailPoller.__init__`. -/
def max_retry_delay : Nat := 60

/-- One pass of the `while self.is_running` body of `start_polling`.
A stopped loop never steps. -/
def loopStep (s : LoopState) (i : CycleIn) : LoopState :=
  if s.is_running = false then s
  else
    match i with
    | .poll true _ =>
      let s := { s with poll_count := s.poll_count + 1 }
      if s.consecutive_failures > 0 then
        { s with consecutive_failures := 0, retry_delay := 5 }
      else s
    | .poll false reconnectOk =>
      let s := { s with poll_count := s.poll_count + 1,
                        consecutive_failures := s.consecutive_failures + 1 }
      let s := { s with waits := s.waits ++ [s.retry_delay],
                        reconnects := s.reconnects + 1 }
      if reconnectOk then
        { s with consecutive_failures := 0, retry_delay := 5 }
      else
        let s := { s with retry_delay := min (s.retry_delay * 2) max_retry_delay }
        if s.consecutive_failures ≥ 5 then { s with is_running := false } else s
    | .unexpected reconnectOk =>
      let s := { s with poll_count := s.poll_count + 1,
                        consecutive_failures := s.consecutive_failures + 1 }
      let s := { s with waits := s.waits ++ [s.retry_delay],
                        reconnects := s.reconnects + 1 }
      if reconnectOk then s
      else
        let s := { s with retry_delay := min (s.retry_delay * 2) max_retry_delay }
        if s.consecutive_failures ≥ 5 then { s with is_running := false } else s
    | .interrupt => { s with is_running := false }

/-- The whole `start_polling` loop over a sequence of iteration outcomes.
The source function always returns normally: every branch of the body is
covered by an `except` clause or ends in `break`/`continue`. -/
def start_polling_run (s : LoopState) (ins : List CycleIn) : LoopState :=
  ins.foldl loopStep s

/-- State shared between `ProcessingQueue.stop` and its worker thread.
`pending` holds the submitted items still in `self.queue`, each recorded
as the outcome of its callback (`true` = returns, `false` = raises);
`running` is `self.running`; the counters are the statistics fields. -/
structure QState where
  pending : List Bool
  running : Bool
  total_processed : Nat
  total_errors : Nat
deriving DecidableEq

/-- A `ProcessingQueue` that was started and had `items` submitted. -/
def qInit (items : List Bool) : QState :=
  { pending := items, running := true, total_processed := 0, total_errors := 0 }

/-- Interleaved events: `tick` is one pass of the worker loop (a dequeue
attempt followed by callback execution with its `try`/`except`), `stop` is
the `self.running = False` assignment in `ProcessingQueue.stop`. -/
inductive QAct where
  | tick : QAct
  | stop : QAct

/-- One scheduler step of the queue.  A worker pass does nothing once
`running` is false (`while self.running` has exited) or when the queue is
empty (`queue.Empty` → `continue`); otherwise it dequeues one item, runs
the callback, and bumps exactly one counter. -/
def qstep (s : QState) (a : QAct) : QState :=
  match a with
  | .stop => { s with running := false }
  | .tick =>
    if s.running = false then s
    else
      match s.pending with
      | [] => s
      | ok :: rest =>
        if ok then { s with pending := rest, total_processed := s.total_processed + 1 }
        else { s with pending := rest, total_errors := s.total_errors + 1 }

/-- An execution of the queue under a scheduler-chosen event sequence. -/
def qrun (s : QState) (acts : List QAct) : QState :=
  acts.foldl qstep s


/-- The `JARVIS_SYSTEM_PROMPT` string from `ai/prompts.py`. -/
def jarvisSystemPrompt : String :=
  "You are Jarvis, a concise, professional, and witty AI for Fahad.\n\nResponsibilities:\n- Organize notes/assignments, track deadlines/reminders, answer queries fast.\n- Ask for clarification if details are missing; confirm when tasks are logged.\n\nStyle:\n- Address the user as \"sir\" once per message.\n- Keep replies brief, prefer bullets, use emojis sparingly (📚 📝 📅 ⏰).\n- Always sign off with \"- Jarvis\".\n"

/-- Embedding of `format_intent_prompt`: `INTENT_CLASSIFICATION_PROMPT` with the subject
and body substituted (Python `str.format`; `\x7b\x7b` renders as a brace). -/
def formatIntentPrompt (subject body : String) : String :=
  "Classify the email intent as NOTE, ASSIGNMENT, QUERY, or GENERAL.\n\nSubject: "
    ++ subject ++ "\nBody: " ++ body
    ++ "\n\nReturn JSON:\n\x7b\n  \"intent\": \"NOTE|ASSIGNMENT|QUERY|GENERAL\",\n  \"confidence\": 0.0-1.0,\n  \"reasoning\": \"brief explanation\"\n\x7d"

/-- Rendering of `ERROR_RESPONSE_TEMPLATE.format(error_message, suggestion)`. -/
def errorResponseTemplate (error_message suggestion : String) : String :=
  "I encountered an issue processing your request, sir.\n\n❌ " ++ error_message
    ++ "\n\n" ++ suggestion ++ "\n\n- Jarvis\n"

/-- Rendering of `ASSIGNMENT_CONFIRMATION_TEMPLATE.format(...)`. -/
def assignmentConfirmationTemplate (class_name title due_date_formatted
    reminder_date_formatted additional_note : String) : String :=
  "Assignment logged, sir.\n\n📚 " ++ class_name ++ " - " ++ title
    ++ "\n📅 Due: " ++ due_date_formatted
    ++ "\n⏰ Reminder set for " ++ reminder_date_formatted
    ++ "\n\n" ++ additional_note ++ "\n\n- Jarvis\n"

/-- Rendering of `NOTE_CONFIRMATION_TEMPLATE.format(...)`. -/
def noteConfirmationTemplate (class_name content_preview : String) : String :=
  "Noted under " ++ class_name ++ ", sir.\n\n📝 " ++ content_preview
    ++ "\n\nFiled in your knowledge base for future reference.\n\n- Jarvis\n"

/-- Python `str()` of a value, as used by `str.format` on extracted fields
(dict/list rendering is simplified to keys and elements without quoting;
no claim inspects rendered text of non-string fields). -/
def pyStr : JVal → String
  | .null => "None"
  | .bool b => if b then "True" else "False"
  | .num q => toString q
  | .str s => s
  | .arr _ => "[...]"
  | .obj _ => "\x7b...\x7d"

/-- One row returned by `Assignments.get_upcoming` (the stored due date is
a datetime; the embedded datetime is an abstract instant). -/
structure AsgRow where
  class_name : String
  title : String
  due : Nat

/-- One row returned by `Notes.search`. -/
structure NoteRow where
  class_name : Option String
  content : String

/-- The read-side of the SQLite store consulted by `process_query`
(external collaborator, abstracted by its three query operations). -/
structure Db where
  upcoming : Nat → List AsgRow
  searchNotes : String → List NoteRow
  allClasses : List String

/-- One attachment of a parsed email. -/
structure Att where
  filename : Option String
  filepath : Option String

/-- A parsed email record as produced by `EmailParser` (external
collaborator; the parser always supplies these fields). -/
structure ParsedEmail where
  subject : String
  body : String
  attachments : List Att
  email_id : Option String
  date : Option String

/-- Result dictionary of `AttachmentHandler.process_and_store`. -/
structure AttRes where
  ocr_status : Option String
  ocr_text : Option String
  err : Option String

/-- All external behaviour one `process_email` call can observe: the four
structured-generation outcomes (`.error` = the call raised, `.ok v` = it
returned the parsed value `v`), the free-text generation outcome, the
`datetime.fromisoformat`/`strftime` library functions (datetimes are
abstract instants), per-attachment storage outcomes, the note-formatter
outcome, and the ids the store would allocate. -/
structure Backend where
  clsOut : Except Unit JVal
  asgOut : Except Unit JVal
  noteOut : Except Unit JVal
  qryOut : Except Unit JVal
  qryRespOut : Except Unit String
  parseIso : String → Option Nat
  fmtDateTimeLong : Nat → String
  fmtDateShort : Nat → String
  attStore : Nat → Except Unit AttRes
  fmtNote : Except Unit String
  classIdOf : JVal → Nat
  nextAssignmentId : Nat
  nextNoteId : Nat

/-- Persistence calls made during a pipeline run (recorded for runs that
return normally; an exception escaping the pipeline aborts the run). -/
inductive DbEff where
  | getOrCreateClass : JVal → DbEff
  | createAssignment : Nat → JVal → Nat → JVal → DbEff
  | createNote : Nat → JVal → DbEff
  | setFormattedPath : Nat → String → DbEff

/-- Embedding of `AIProcessor.classify_intent`: returns whatever `generate_json`
returned, or the hardcoded GENERAL fallback if the call raised. -/
def classify_intent (clsOut : Except Unit JVal) : JVal :=
  match clsOut with
  | .ok v => v
  | .error _ =>
    .obj [("intent", .str "GENERAL"),
          ("confidence", .num (1/2)),
          ("reasoning", .str "Failed to classify, defaulting to GENERAL")]

/-- Embedding of `AIProcessor.extract_assignment_entities`: the parsed value, or the
local fallback dictionary if the `generate_json` call raised
(`subject or "Untitled Assignment"` is a Python truthiness choice). -/
def extract_assignment_entities (asgOut : Except Unit JVal)
    (subject body : String) : JVal :=
  match asgOut with
  | .ok v => v
  | .error _ =>
    .obj [("class_name", .null),
          ("due_date", .null),
          ("title", if subject ≠ "" then .str subject else .str "Untitled Assignment"),
          ("description", .str (strTake body 200)),
          ("priority", .str "medium")]

/-- Embedding of `AIProcessor.extract_note_entities`: the parsed value, or the local
fallback dictionary if the `generate_json` call raised. -/
def extract_note_entities (noteOut : Except Unit JVal)
    (_subject body : String) : JVal :=
  match noteOut with
  | .ok v => v
  | .error _ =>
    .obj [("class_name", .null),
          ("content", .str body),
          ("note_type", .str "general"),
          ("tags", .arr [])]

/-- The `success: false` result built for a missing due date. -/
def noDueDateResult : JVal :=
  .obj [("success", .bool false),
        ("error", .str "no_due_date"),
        ("message", .str (errorResponseTemplate
          "I couldn\u0027t find a due date in your email."
          "Please include the deadline (e.g., \u0027due October 20th at 11:59 PM\u0027)."))]

/-- The `success: false` result built for an unparseable due date. -/
def invalidDueDateResult : JVal :=
  .obj [("success", .bool false),
        ("error", .str "invalid_due_date"),
        ("message", .str (errorResponseTemplate
          "I couldn\u0027t parse the due date."
          "Please use a clear format like \u0027October 20, 2024 at 11:59 PM\u0027."))]

/-- Embedding of `AIProcessor.process_assignment` (lines 141-219): validate the
extracted due date before touching persistence, then create the class and
assignment records and build the confirmation.  The reminder instant is
`due - 24h`; abstract instants make that a truncated subtraction. -/
def process_assignment (be : Backend) (pe : ParsedEmail) :
    Except PyErr (JVal × List DbEff) := do
  let entities := extract_assignment_entities be.asgOut pe.subject pe.body
  let ddOpt ← pyGet entities "due_date"
  let dd := ddOpt.getD .null
  if truthy dd = false then
    return (noDueDateResult, [])
  else
    let parsed : Option Nat :=
      match dd with
      | .str s => be.parseIso s
      | _ => none
    match parsed with
    | none => return (invalidDueDateResult, [])
    | some due =>
      let cnOpt ← pyGet entities "class_name"
      let cn := cnOpt.getD .null
      let class_name : JVal := if truthy cn then cn else .str "General"
      let class_id := be.classIdOf class_name
      let title ← pyItem entities "title"
      let descOpt ← pyGet entities "description"
      let effs := [DbEff.getOrCreateClass class_name,
                   DbEff.createAssignment class_id title due (descOpt.getD .null)]
      let due_formatted := be.fmtDateTimeLong due
      let reminder_formatted := be.fmtDateShort (due - 86400)
      let prOpt ← pyGet entities "priority"
      let additional_note :=
        if jeqStr (prOpt.getD .null) "high" then
          "⚠️  This appears to be high priority. I recommend starting soon."
        else ""
      let message := assignmentConfirmationTemplate (pyStr class_name) (pyStr title)
        due_formatted reminder_formatted additional_note
      return (.obj [("success", .bool true),
                    ("assignment_id", .num be.nextAssignmentId),
                    ("message", .str message)], effs)

/-- Embedding of `AIProcessor._process_attachments_for_note`: one entry per attachment,
exceptions from `process_and_store` caught per attachment and recorded as
a failed entry. -/
def processAttachmentsForNote (be : Backend) (atts : List Att) : List AttRes :=
  (List.range atts.length).map (fun i =>
    match be.attStore i with
    | .ok r => r
    | .error _ => { ocr_status := some "failed", ocr_text := none, err := some "error" })

/-- Embedding of `AIProcessor.process_note` (lines 221-307).  The formatter call is
wrapped in its own `try`, so a formatter failure only drops the
`set_formatted_path` update.  Slicing `note_content[:100]` raises
`TypeError` when the extracted content is not a string. -/
def process_note (be : Backend) (pe : ParsedEmail) :
    Except PyErr (JVal × List DbEff) := do
  let attachments_count := pe.attachments.length
  let entities := extract_note_entities be.noteOut pe.subject pe.body
  let cOpt ← pyGet entities "content"
  let note_content := cOpt.getD (.str pe.body)
  let cnOpt ← pyGet entities "class_name"
  let cn := cnOpt.getD .null
  let class_name : JVal := if truthy cn then cn else .str "General"
  let class_id := be.classIdOf class_name
  let ntOpt ← pyGet entities "note_type"
  let _note_type := ntOpt.getD (.str "general")
  let tagsOpt ← pyGet entities "tags"
  let _tags := tagsOpt.getD (.arr [])
  let note_id := be.nextNoteId
  let attachments_info :=
    if attachments_count ≠ 0 then processAttachmentsForNote be pe.attachments else []
  let formatted_path : Option String :=
    match be.fmtNote with
    | .ok p => some p
    | .error _ => none
  let effs := [DbEff.getOrCreateClass class_name, DbEff.createNote class_id note_content]
    ++ (match formatted_path with
        | some p => [DbEff.setFormattedPath note_id p]
        | none => [])
  match note_content with
  | .str s =>
    let content_preview := strTake s 100 ++ (if s.length > 100 then "..." else "")
    let message := noteConfirmationTemplate (pyStr class_name) content_preview
    let extra_lines :=
      (if attachments_info.isEmpty then []
       else ["📎 Processed " ++ toString attachments_info.length ++ " attachment(s) with OCR."])
      ++ (match formatted_path with
          | some p => ["📂 Saved to notes folder as " ++ p ++ "."]
          | none => [])
    let message :=
      if extra_lines.isEmpty then message
      else message.replace "- Jarvis" (String.intercalate "\n" (extra_lines ++ ["", "- Jarvis"]))
    return (.obj [("success", .bool true),
                  ("note_id", .num note_id),
                  ("message", .str message)], effs)
  | _ => .error .typeError

/-- The lookahead-window mapping computed inline in `process_query`
(lines 387-390): a chain of equality tests against the named filters. -/
def lookaheadDays (time_filter : JVal) : Nat :=
  if jeqStr time_filter "today" then 1
  else if jeqStr time_filter "tomorrow" then 1
  else if jeqStr time_filter "this_week" then 7
  else if jeqStr time_filter "next_week" then 14
  else 30

/-- Strings of a JSON list, if every element is a string. -/
def asStrings : List JVal → Option (List String)
  | [] => some []
  | .str s :: rest => (asStrings rest).map (fun ss => s :: ss)
  | _ => none

/-- Python space-join of `x` (str.join with a space): joins a list of strings; joining a string joins
its characters; everything else raises `TypeError`. -/
def joinTerms (v : JVal) : Except PyErr String :=
  match v with
  | .arr xs =>
    match asStrings xs with
    | some ss => .ok (String.intercalate " " ss)
    | none => .error .typeError
  | .str s => .ok (String.intercalate " " (s.toList.map (fun c => String.mk [c])))
  | _ => .error .typeError

/-- Embedding of `AIProcessor.process_query` (lines 352-449): understand the query
(with a local fallback when the generation call raises), fetch data for
the recognized query type, then generate the response, falling back to
the data string when generation raises.  `Notes.search` is consulted with
`limit=10`, folded into the abstract `searchNotes`. -/
def process_query (be : Backend) (db : Db) (pe : ParsedEmail) :
    Except PyErr (JVal × List DbEff) := do
  let _ := pe.body
  let query_analysis : JVal :=
    match be.qryOut with
    | .ok v => v
    | .error _ =>
      .obj [("query_type", .str "general"),
            ("time_filter", .null),
            ("class_filter", .null),
            ("search_terms", .arr [])]
  let qt ← pyItem query_analysis "query_type"
  let data_str ←
    if jeqStr qt "assignments_due" then do
      let tf ← pyItem query_analysis "time_filter"
      let assignments := db.upcoming (lookaheadDays tf)
      pure (if assignments.isEmpty then "No upcoming assignments found."
            else "Upcoming Assignments:\n" ++ String.join (assignments.map (fun a =>
              "- " ++ a.class_name ++ ": " ++ a.title
                ++ " (Due: " ++ be.fmtDateShort a.due ++ ")\n")))
    else if jeqStr qt "notes_search" then do
      let st ← pyItem query_analysis "search_terms"
      if truthy st then do
        let search_query ← joinTerms st
        let notes := db.searchNotes search_query
        pure (if notes.isEmpty then
                "No notes found matching \u0027" ++ search_query ++ "\u0027."
              else "Found Notes:\n" ++ String.join (notes.map (fun n =>
                "- " ++ n.class_name.getD "General" ++ ": "
                  ++ strTake n.content 100 ++ "...\n")))
      else pure "Please specify what you\u0027d like to search for."
    else if jeqStr qt "class_info" then
      pure (if db.allClasses.isEmpty then "No classes found in your system yet."
            else "Your Classes:\n"
              ++ String.join (db.allClasses.map (fun c => "- " ++ c ++ "\n")))
    else
      pure "General query - no specific data retrieved."
  let response :=
    match be.qryRespOut with
    | .ok r => r
    | .error _ => data_str ++ "\n\n- Jarvis"
  return (.obj [("success", .bool true), ("message", .str response)], [])

/-- Python `f"\x7bconfidence:.2f\x7d"`: numbers (and booleans, which are
ints) format; other values raise. -/
def pyFmtF2 (v : JVal) : Except PyErr String :=
  match v with
  | .num q => .ok (toString q)
  | .bool b => .ok (if b then "1.00" else "0.00")
  | _ => .error .typeError

/-- The static GENERAL-branch response of `process_email`. -/
def generalResponseMessage : String :=
  "Acknowledged, sir.\n\nI\u0027ve received your message. If you need me to:\n- Save an assignment: Include the due date\n- Save notes: Share the content you\u0027d like filed\n- Query information: Ask me what you\u0027d like to know\n\nHow may I assist you?\n\n- Jarvis\n"

/-- Embedding of `AIProcessor.process_email` (lines 451-498): classify, read the intent
and confidence out of the classification dictionary (plain subscripts, so
a missing key raises `KeyError`), then dispatch on the intent string with
GENERAL as the default branch. -/
def process_email (be : Backend) (db : Db) (pe : ParsedEmail) :
    Except PyErr (JVal × List DbEff) := do
  let intent_result := classify_intent be.clsOut
  let intent ← pyItem intent_result "intent"
  let confidence ← pyItem intent_result "confidence"
  let _ ← pyFmtF2 confidence
  if jeqStr intent "ASSIGNMENT" then process_assignment be pe
  else if jeqStr intent "NOTE" then process_note be pe
  else if jeqStr intent "QUERY" then process_query be db pe
  else return (.obj [("success", .bool true),
                     ("message", .str generalResponseMessage)], [])

/-- Classification outcomes under which `process_email` can read the
intent and confidence: the call raised (the local fallback is used), or it
returned a dictionary carrying an `intent` entry and a numeric
`confidence` entry. -/
def ClsOk (o : Except Unit JVal) : Prop :=
  o = .error () ∨ ∃ fields, o = .ok (.obj fields) ∧
    (∃ v, jlookup fields "intent" = some v) ∧
    (∃ q, jlookup fields "confidence" = some (.num q))

/-- Assignment-extraction outcomes under which `process_assignment`
cannot raise: the call raised, or it returned a dictionary that carries a
`title` entry whenever its `due_date` entry is a parseable string. -/
def AsgOk (be : Backend) : Prop :=
  be.asgOut = .error () ∨ ∃ fields, be.asgOut = .ok (.obj fields) ∧
    (∀ s d, jlookup fields "due_date" = some (.str s) →
      be.parseIso s = some d → ∃ t, jlookup fields "title" = some t)

/-- Note-extraction outcomes under which `process_note` cannot raise: the
call raised, or it returned a dictionary whose `content` entry, when
present, is a string (the preview slice requires a string). -/
def NoteOk (o : Except Unit JVal) : Prop :=
  o = .error () ∨ ∃ fields, o = .ok (.obj fields) ∧
    (jlookup fields "content" = none ∨ ∃ s, jlookup fields "content" = some (.str s))

/-- Query-understanding outcomes under which `process_query` cannot
raise: the call raised, or it returned a dictionary with a `query_type`
entry, a `time_filter` entry when the type is `assignments_due`, and a
joinable `search_terms` entry when the type is `notes_search`. -/
def QryOk (o : Except Unit JVal) : Prop :=
  o = .error () ∨ ∃ fields, o = .ok (.obj fields) ∧
    (∃ qt, jlookup fields "query_type" = some qt) ∧
    (jlookup fields "query_type" = some (.str "assignments_due") →
      ∃ tf, jlookup fields "time_filter" = some tf) ∧
    (jlookup fields "query_type" = some (.str "notes_search") →
      ∃ st, jlookup fields "search_terms" = some st ∧
        (truthy st = true → ∃ j, joinTerms st = .ok j))

/-- Invariant of the reconnection-backoff state: the delay stays between
the 5-second floor and the 60-second ceiling, and equals the floor
whenever no failure streak is in progress. -/
def LoopInv (s : LoopState) : Prop :=
  5 ≤ s.retry_delay ∧ s.retry_delay ≤ 60 ∧
    (s.consecutive_failures = 0 → s.retry_delay = 5)

/-- A backend whose structured-generation calls all raise, used to
instantiate universally-quantified theorems at a concrete input. -/
def beAllRaise : Backend :=
  { clsOut := .error (), asgOut := .error (), noteOut := .error (),
    qryOut := .error (), qryRespOut := .error (),
    parseIso := fun _ => none, fmtDateTimeLong := fun _ => "",
    fmtDateShort := fun _ => "", attStore := fun _ => .error (),
    fmtNote := .error (), classIdOf := fun _ => 1,
    nextAssignmentId := 1, nextNoteId := 1 }

/-- An empty store, for concrete instantiations. -/
def dbEmpty : Db :=
  { upcoming := fun _ => [], searchNotes := fun _ => [], allClasses := [] }

/-- A minimal parsed email, for concrete instantiations. -/
def peSimple : ParsedEmail :=
  { subject := "Hello", body := "World", attachments := [],
    email_id := none, date := none }

/-- The empty needle occurs in every hay. -/
theorem hasSub_nil (t : List Char) : hasSub [] t = true := by
  induction t with
  | nil => rfl
  | cons c rest ih => simp [hasSub, lPre]

/-- A prefix of `h` is a prefix of `h ++ t`. -/
theorem lPre_append (n h t : List Char) (hp : lPre n h = true) :
    lPre n (h ++ t) = true := by
  induction n generalizing h with
  | nil => rfl
  | cons a n ih =>
    cases h with
    | nil => simp [lPre] at hp
    | cons b h =>
      simp only [lPre, Bool.and_eq_true] at hp ⊢
      exact ⟨hp.1, ih h hp.2⟩

/-- Occurrence in `h` survives appending on the right. -/
theorem hasSub_append_r (n h t : List Char) (hs : hasSub n h = true) :
    hasSub n (h ++ t) = true := by
  induction h with
  | nil =>
    cases n with
    | nil => exact hasSub_nil t
    | cons a m => simp [hasSub, lPre] at hs
  | cons c h ih =>
    simp only [hasSub, Bool.or_eq_true] at hs
    cases hs with
    | inl hp =>
      have : lPre n ((c :: h) ++ t) = true := lPre_append n (c :: h) t hp
      simp only [List.cons_append] at this ⊢
      simp [hasSub, this]
    | inr hrest =>
      simp only [List.cons_append]
      simp [hasSub, ih hrest]

/-- Occurrence in `t` survives appending on the left. -/
theorem hasSub_append_l (n h t : List Char) (hs : hasSub n t = true) :
    hasSub n (h ++ t) = true := by
  induction h with
  | nil => exact hs
  | cons c h ih =>
    simp only [List.cons_append]
    simp [hasSub, ih]

/-- Containment in the left part survives string concatenation. -/
theorem strContains_append_r (a b needle : String)
    (hs : strContainsSub a needle = true) :
    strContainsSub (a ++ b) needle = true := by
  unfold strContainsSub at hs ⊢
  rw [show (a ++ b).toList = a.toList ++ b.toList from String.data_append a b,
      List.map_append]
  exact hasSub_append_r _ _ _ hs

/-- Containment in the right part survives string concatenation. -/
theorem strContains_append_l (a b needle : String)
    (hs : strContainsSub b needle = true) :
    strContainsSub (a ++ b) needle = true := by
  unfold strContainsSub at hs ⊢
  rw [show (a ++ b).toList = a.toList ++ b.toList from String.data_append a b,
      List.map_append]
  exact hasSub_append_l _ _ _ hs

/-- The static prefix of the intent prompt carries the keyword `intent`,
so the combined classification prompt always matches the first fallback
branch, whatever the subject and body are. -/
theorem intent_prompt_keyword (s b : String) :
    strContainsSub (jarvisSystemPrompt ++ " " ++ formatIntentPrompt s b) "intent" = true := by
  apply strContains_append_l
  unfold formatIntentPrompt
  apply strContains_append_r
  apply strContains_append_r
  apply strContains_append_r
  apply strContains_append_r
  decide

/-- On the classification prompt the keyword fallback is the intent
shape. -/
theorem fallback_intent_shape (s b : String) :
    get_fallback_structure jarvisSystemPrompt (formatIntentPrompt s b)
    = .obj [("intent", .str "GENERAL"),
            ("confidence", .num (3/10)),
            ("reasoning", .str "Fallback - model failed to classify")] := by
  unfold get_fallback_structure
  simp [intent_prompt_keyword s b]

/-- A run whose responses never parse consumes an attempt per iteration
and ends with the fallback. -/
theorem generate_json_go_all_none (resp : Nat → Option JVal) (fb : JVal)
    (h : ∀ n, resp n = none) :
    ∀ k i, generate_json_go resp fb (k + 1) i = (fb, i + (k + 1)) := by
  intro k
  induction k with
  | zero => intro i; simp [generate_json_go, h i]
  | succ k ih =>
    intro i
    simp only [generate_json_go, h i]
    rw [ih (i + 1)]
    congr 1
    omega

/-- Running `generate_json` on an always-unparseable backend: keyword fallback
after exactly `retries + 1` backend calls. -/
theorem generate_json_all_fail (resp : Nat → Option JVal)
    (sys user : String) (retries : Nat) (h : ∀ n, resp n = none) :
    generate_json resp sys user retries
    = (get_fallback_structure sys user, retries + 1) := by
  unfold generate_json
  rw [generate_json_go_all_none resp _ h retries 0]
  congr 1
  omega

/-- One loop step preserves the backoff invariant. -/
theorem loopStep_inv (s : LoopState) (i : CycleIn) (h : LoopInv s) :
    LoopInv (loopStep s i) := by
  obtain ⟨h5, h60, h0⟩ := h
  unfold loopStep
  by_cases hr : s.is_running = false
  · simp [hr]; exact ⟨h5, h60, h0⟩
  · simp only [hr, if_false]
    cases i with
    | poll ok rc =>
      cases ok with
      | true =>
        by_cases hf : s.consecutive_failures > 0 <;>
          simp [hf, LoopInv] <;> exact ⟨h5, h60, h0⟩
      | false =>
        cases rc with
        | true => simp [LoopInv]
        | false =>
          by_cases hf : s.consecutive_failures + 1 ≥ 5 <;>
            simp [hf, LoopInv, max_retry_delay] <;> omega
    | unexpected rc =>
      cases rc with
      | true => simp [LoopInv]; omega
      | false =>
        by_cases hf : s.consecutive_failures + 1 ≥ 5 <;>
          simp [hf, LoopInv, max_retry_delay] <;> omega
    | interrupt => simp [LoopInv]; exact ⟨h5, h60, h0⟩

/-- The backoff invariant holds after any run from any invariant state. -/
theorem start_polling_run_inv (ins : List CycleIn) :
    ∀ s : LoopState, LoopInv s → LoopInv (start_polling_run s ins) := by
  induction ins with
  | nil => intro s h; exact h
  | cons i ins ih =>
    intro s h
    exact ih (loopStep s i) (loopStep_inv s i h)

/-- The invariant holds on every reachable state of a fresh loop. -/
theorem reachable_inv (ins : List CycleIn) :
    LoopInv (start_polling_run initLoopState ins) :=
  start_polling_run_inv ins initLoopState (by simp [LoopInv, initLoopState])

/-- A stopped loop never changes state again. -/
theorem start_polling_run_stopped (ins : List CycleIn) :
    ∀ s : LoopState, s.is_running = false → start_polling_run s ins = s := by
  induction ins with
  | nil => intro s _; rfl
  | cons i ins ih =>
    intro s h
    have hstep : loopStep s i = s := by simp [loopStep, h]
    show start_polling_run (loopStep s i) ins = s
    rw [hstep]
    exact ih s h

/-- Each queue event moves at most one item from the queue into exactly
one of the two counters: their sum with the queue size is constant. -/
theorem qstep_conserve (s : QState) (a : QAct) :
    (qstep s a).total_processed + (qstep s a).total_errors
      + (qstep s a).pending.length
    = s.total_processed + s.total_errors + s.pending.length := by
  cases a with
  | stop => rfl
  | tick =>
    by_cases hr : s.running = false
    · simp [qstep, hr]
    · cases hp : s.pending with
      | nil => simp [qstep, hr, hp]
      | cons ok rest =>
        cases ok <;> simp [qstep, hr, hp, List.length_cons] <;> omega

/-- The conservation law holds along any schedule. -/
theorem qrun_conserve (acts : List QAct) :
    ∀ s : QState,
      (qrun s acts).total_processed + (qrun s acts).total_errors
        + (qrun s acts).pending.length
      = s.total_processed + s.total_errors + s.pending.length := by
  induction acts with
  | nil => intro s; rfl
  | cons a acts ih =>
    intro s
    have hun : qrun s (a :: acts) = qrun (qstep s a) acts := rfl
    rw [hun, ih (qstep s a)]
    exact qstep_conserve s a

/-- Once the stop flag is observed, no event changes the state. -/
theorem qstep_stopped (s : QState) (a : QAct) (h : s.running = false) :
    qstep s a = s := by
  cases a with
  | tick => simp [qstep, h]
  | stop =>
    obtain ⟨p, r, tp, te⟩ := s
    simp only [qstep]
    simp at h
    rw [h]

/-- A stopped queue stays frozen under any further schedule. -/
theorem qrun_stopped (acts : List QAct) :
    ∀ s : QState, s.running = false → qrun s acts = s := by
  induction acts with
  | nil => intro s _; rfl
  | cons a acts ih =>
    intro s h
    show qrun (qstep s a) acts = s
    rw [qstep_stopped s a h]
    exact ih s h

/-- If the extraction call raised, the local fallback has a null due date
and `process_assignment` stops with the no-due-date outcome. -/
theorem process_assignment_raise (be : Backend) (pe : ParsedEmail)
    (h : be.asgOut = .error ()) :
    process_assignment be pe = .ok (noDueDateResult, []) := by
  unfold process_assignment extract_assignment_entities
  rw [h]
  rfl

/-- A falsy extracted due date (missing, null, empty, and so on) stops
`process_assignment` with the no-due-date outcome before any persistence. -/
theorem process_assignment_falsy_due (be : Backend) (pe : ParsedEmail)
    (fs : List (String × JVal)) (hout : be.asgOut = .ok (.obj fs))
    (hdd : truthy ((jlookup fs "due_date").getD .null) = false) :
    process_assignment be pe = .ok (noDueDateResult, []) := by
  unfold process_assignment extract_assignment_entities
  rw [hout]
  simp [pyGet, Bind.bind, Except.bind, Pure.pure, Except.pure, hdd]

/-- A truthy extracted due date that does not parse (a bad string, or a
non-string value) stops `process_assignment` with the invalid-due-date
outcome before any persistence. -/
theorem process_assignment_bad_due (be : Backend) (pe : ParsedEmail)
    (fs : List (String × JVal)) (dd : JVal)
    (hout : be.asgOut = .ok (.obj fs))
    (hdd : jlookup fs "due_date" = some dd)
    (ht : truthy dd = true)
    (hp : (match dd with | .str s => be.parseIso s | _ => none) = none) :
    process_assignment be pe = .ok (invalidDueDateResult, []) := by
  unfold process_assignment extract_assignment_entities
  rw [hout]
  simp [pyGet, Bind.bind, Except.bind, Pure.pure, Except.pure, hdd, ht, hp]

/-- With a parseable string due date and a present title,
`process_assignment` persists the class and the assignment and returns a
success result whose message is the formatted confirmation. -/
theorem process_assignment_success (be : Backend) (pe : ParsedEmail)
    (fs : List (String × JVal)) (s : String) (d : Nat) (t : JVal)
    (hout : be.asgOut = .ok (.obj fs))
    (hdd : jlookup fs "due_date" = some (.str s))
    (hs : s ≠ "")
    (hp : be.parseIso s = some d)
    (htl : jlookup fs "title" = some t) :
    ∃ fields effs m, process_assignment be pe = .ok (.obj fields, effs) ∧
      jlookup fields "message" = some (.str m) := by
  unfold process_assignment extract_assignment_entities
  rw [hout]
  simp [pyGet, pyItem, Bind.bind, Except.bind, Pure.pure, Except.pure,
    hdd, hp, htl, truthy, hs]
  exact ⟨_, rfl⟩

/-- Under `AsgOk`, `process_assignment` returns normally with a message. -/
theorem process_assignment_msg (be : Backend) (pe : ParsedEmail)
    (h : AsgOk be) :
    ∃ fields effs m, process_assignment be pe = .ok (.obj fields, effs) ∧
      jlookup fields "message" = some (.str m) := by
  rcases h with h | ⟨fs, hout, hdd⟩
  · exact ⟨_, _, _, process_assignment_raise be pe h, rfl⟩
  · cases hv : jlookup fs "due_date" with
    | none =>
      refine ⟨_, _, _, process_assignment_falsy_due be pe fs hout ?_, rfl⟩
      simp [hv, truthy]
    | some dd =>
      by_cases ht : truthy dd = true
      · cases hparse : (match dd with | .str s => be.parseIso s | _ => none) with
        | none =>
          exact ⟨_, _, _, process_assignment_bad_due be pe fs dd hout hv ht hparse, rfl⟩
        | some d =>
          cases dd with
          | str s =>
            have hs : s ≠ "" := by
              intro hempty
              rw [hempty] at ht
              simp [truthy] at ht
            have hp : be.parseIso s = some d := hparse
            obtain ⟨t, htl⟩ := hdd s d hv hp
            exact process_assignment_success be pe fs s d t hout hv hs hp htl
          | null => simp at hparse
          | bool b => simp at hparse
          | num q => simp at hparse
          | arr xs => simp at hparse
          | obj fs2 => simp at hparse
      · refine ⟨_, _, _, process_assignment_falsy_due be pe fs hout ?_, rfl⟩
        simp [hv]
        simpa using ht

/-- Under `NoteOk`, `process_note` returns normally with a message. -/
theorem process_note_msg (be : Backend) (pe : ParsedEmail)
    (h : NoteOk be.noteOut) :
    ∃ fields effs m, process_note be pe = .ok (.obj fields, effs) ∧
      jlookup fields "message" = some (.str m) := by
  rcases h with h | ⟨fs, hout, hc⟩
  · unfold process_note extract_note_entities
    rw [h]
    simp [pyGet, Bind.bind, Except.bind, Pure.pure, Except.pure, jlookup]
  · rcases hc with hc | ⟨s, hc⟩ <;>
    · unfold process_note extract_note_entities
      rw [hout]
      simp [pyGet, Bind.bind, Except.bind, Pure.pure, Except.pure, hc]
      exact ⟨_, rfl⟩

/-- A value comparing equal to a string literal is that string. -/
theorem jeqStr_eq (v : JVal) (s : String) (h : jeqStr v s = true) :
    v = .str s := by
  cases v <;> simp [jeqStr] at h
  rw [h]

/-- Under `QryOk`, `process_query` returns normally with a message. -/
theorem process_query_msg (be : Backend) (db : Db) (pe : ParsedEmail)
    (h : QryOk be.qryOut) :
    ∃ fields effs m, process_query be db pe = .ok (.obj fields, effs) ∧
      jlookup fields "message" = some (.str m) := by
  rcases h with h | ⟨fs, hout, ⟨qt, hqt⟩, htf, hst⟩
  · unfold process_query
    rw [h]
    simp [pyItem, jlookup, Bind.bind, Except.bind, Pure.pure, Except.pure, jeqStr]
  · unfold process_query
    rw [hout]
    by_cases h1 : jeqStr qt "assignments_due" = true
    · obtain ⟨tf, htf2⟩ := htf (by rw [← jeqStr_eq qt _ h1]; exact hqt)
      simp [pyItem, hqt, htf2, h1, Bind.bind, Except.bind, Pure.pure, Except.pure]
      exact ⟨_, rfl⟩
    · by_cases h2 : jeqStr qt "notes_search" = true
      · obtain ⟨st, hst2, hj⟩ := hst (by rw [← jeqStr_eq qt _ h2]; exact hqt)
        by_cases h3 : truthy st = true
        · obtain ⟨j, hj2⟩ := hj h3
          simp [pyItem, hqt, hst2, h1, h2, h3, hj2,
            Bind.bind, Except.bind, Pure.pure, Except.pure]
          exact ⟨_, rfl⟩
        · simp [pyItem, hqt, hst2, h1, h2, h3,
            Bind.bind, Except.bind, Pure.pure, Except.pure]
          exact ⟨_, rfl⟩
      · by_cases h4 : jeqStr qt "class_info" = true
        · simp [pyItem, hqt, h1, h2, h4,
            Bind.bind, Except.bind, Pure.pure, Except.pure]
          exact ⟨_, rfl⟩
        · simp [pyItem, hqt, h1, h2, h4,
            Bind.bind, Except.bind, Pure.pure, Except.pure]
          exact ⟨_, rfl⟩

/-- Under the four shape conditions, `process_email` returns normally and
its result carries a message string, whatever the store and the email. -/
theorem process_email_msg (be : Backend) (db : Db) (pe : ParsedEmail)
    (hc : ClsOk be.clsOut) (ha : AsgOk be) (hn : NoteOk be.noteOut)
    (hq : QryOk be.qryOut) :
    ∃ fields effs m, process_email be db pe = .ok (.obj fields, effs) ∧
      jlookup fields "message" = some (.str m) := by
  rcases hc with hc | ⟨cfs, hcout, ⟨iv, hiv⟩, ⟨q, hq2⟩⟩
  · unfold process_email classify_intent
    rw [hc]
    simp [pyItem, jlookup, pyFmtF2, jeqStr,
      Bind.bind, Except.bind, Pure.pure, Except.pure]
  · unfold process_email classify_intent
    rw [hcout]
    simp only [pyItem, hiv, hq2, pyFmtF2,
      Bind.bind, Except.bind, Pure.pure, Except.pure]
    by_cases d1 : jeqStr iv "ASSIGNMENT" = true
    · simpa [d1] using process_assignment_msg be pe ha
    · by_cases d2 : jeqStr iv "NOTE" = true
      · simpa [d1, d2] using process_note_msg be pe hn
      · by_cases d3 : jeqStr iv "QUERY" = true
        · simpa [d1, d2, d3] using process_query_msg be db pe hq
        · simp [d1, d2, d3, Pure.pure, Except.pure]
          exact ⟨_, rfl⟩

/-- Every message of a batch is visited: the skipped ones are exactly
those the dedup callback accepts, and a handler failure never stops the
traversal. -/
theorem pollBatch_visits (isProcessed : Nat → Bool)
    (handler : Nat → Except Unit Unit) :
    ∀ msgs : List Nat,
      (pollBatch isProcessed handler msgs).map Prod.fst
      = msgs.filter (fun m => !(isProcessed m)) := by
  intro msgs
  induction msgs with
  | nil => rfl
  | cons m rest ih =>
    by_cases hm : isProcessed m = true <;>
      simp [pollBatch, List.filter, hm, ih]

/-- C1 counterexample.  The claim says the delay and the failure counter
reset after any successful reconnect.  Run the loop from a fresh start
through one connection failure with failed reconnect (delay becomes 10)
and then one unexpected-exception cycle whose reconnect succeeds: the
code leaves the counter at 2 and the delay at 10 instead of resetting
them, because the generic `except Exception` branch resets nothing on a
successful `connect()`. -/
theorem backoff_reset_counterexample :
    (start_polling_run initLoopState
      [.poll false false, .unexpected true]).consecutive_failures = 2
  ∧ (start_polling_run initLoopState
      [.poll false false, .unexpected true]).retry_delay = 10
  ∧ (start_polling_run initLoopState
      [.poll false false, .unexpected true]).reconnects = 2 := by
  decide

/-- C1 (amended).  On every run of the polling loop the retry delay
starts at the 5-second floor and stays within the 5..60 band; while the
loop is live, a poll failure whose reconnect fails sleeps for the current
delay and then doubles it capped at 60 (so the delay never decreases
across consecutive failures); a successful poll, and a successful
reconnect in the connection-error branch, reset the delay to 5 and the
failure counter to 0 (in the unexpected-exception branch a successful
reconnect resets neither — see the counterexample); three initial
failures wait 5s, 10s, 20s. -/
theorem backoff_policy (ins : List CycleIn) (r : Bool)
    (h : (start_polling_run initLoopState ins).is_running = true) :
    (5 ≤ (start_polling_run initLoopState ins).retry_delay
      ∧ (start_polling_run initLoopState ins).retry_delay ≤ 60)
  ∧ (loopStep (start_polling_run initLoopState ins) (.poll false false)).retry_delay
      = min ((start_polling_run initLoopState ins).retry_delay * 2) 60
  ∧ (start_polling_run initLoopState ins).retry_delay
      ≤ (loopStep (start_polling_run initLoopState ins) (.poll false false)).retry_delay
  ∧ (loopStep (start_polling_run initLoopState ins) (.poll false false)).waits
      = (start_polling_run initLoopState ins).waits
        ++ [(start_polling_run initLoopState ins).retry_delay]
  ∧ (loopStep (start_polling_run initLoopState ins) (.poll true r)).retry_delay = 5
  ∧ (loopStep (start_polling_run initLoopState ins) (.poll true r)).consecutive_failures = 0
  ∧ (loopStep (start_polling_run initLoopState ins) (.poll false true)).retry_delay = 5
  ∧ (loopStep (start_polling_run initLoopState ins) (.poll false true)).consecutive_failures = 0
  ∧ initLoopState.retry_delay = 5
  ∧ (start_polling_run initLoopState
      [.poll false false, .poll false false, .poll false false]).waits = [5, 10, 20] := by
  obtain ⟨h5, h60, h0⟩ := reachable_inv ins
  refine ⟨⟨h5, h60⟩, ?_, ?_, ?_, ?_, ?_, ?_, ?_, rfl, by decide⟩
  · by_cases hf : (start_polling_run initLoopState ins).consecutive_failures + 1 ≥ 5 <;>
      simp [loopStep, h, max_retry_delay, hf]
  · by_cases hf : (start_polling_run initLoopState ins).consecutive_failures + 1 ≥ 5 <;>
      simp [loopStep, h, max_retry_delay, hf] <;>
      exact ⟨by omega, h60⟩
  · by_cases hf : (start_polling_run initLoopState ins).consecutive_failures + 1 ≥ 5 <;>
      simp [loopStep, h, max_retry_delay, hf]
  · by_cases hf : (start_polling_run initLoopState ins).consecutive_failures > 0 <;>
      simp [loopStep, h, hf]
    exact h0 (by omega)
  · by_cases hf : (start_polling_run initLoopState ins).consecutive_failures > 0 <;>
      simp [loopStep, h, hf]
    omega
  · simp [loopStep, h]
  · simp [loopStep, h]

/-- Witness for the amended C1 theorem at the empty run. -/
theorem backoff_policy_witness :
    (5 ≤ (start_polling_run initLoopState []).retry_delay
      ∧ (start_polling_run initLoopState []).retry_delay ≤ 60)
  ∧ (loopStep (start_polling_run initLoopState []) (.poll false false)).retry_delay
      = min ((start_polling_run initLoopState []).retry_delay * 2) 60
  ∧ (start_polling_run initLoopState []).retry_delay
      ≤ (loopStep (start_polling_run initLoopState []) (.poll false false)).retry_delay
  ∧ (loopStep (start_polling_run initLoopState []) (.poll false false)).waits
      = (start_polling_run initLoopState []).waits
        ++ [(start_polling_run initLoopState []).retry_delay]
  ∧ (loopStep (start_polling_run initLoopState []) (.poll true true)).retry_delay = 5
  ∧ (loopStep (start_polling_run initLoopState []) (.poll true true)).consecutive_failures = 0
  ∧ (loopStep (start_polling_run initLoopState []) (.poll false true)).retry_delay = 5
  ∧ (loopStep (start_polling_run initLoopState []) (.poll false true)).consecutive_failures = 0
  ∧ initLoopState.retry_delay = 5
  ∧ (start_polling_run initLoopState
      [.poll false false, .poll false false, .poll false false]).waits = [5, 10, 20] :=
  backoff_policy [] true (by decide)

/-- C4.  Five consecutive poll failures with failed reconnects drive the
loop into the terminal state: `is_running` is false, any further input is
ignored (the loop has exited), and four failures are not yet terminal.
`start_polling_run` is a total function, matching the source where every
body branch is covered by an `except` clause or ends in the loop. -/
theorem poller_failed_after_five (rest : List CycleIn) :
    (start_polling_run initLoopState
      (List.replicate 5 (.poll false false))).is_running = false
  ∧ start_polling_run initLoopState (List.replicate 5 (.poll false false) ++ rest)
      = start_polling_run initLoopState (List.replicate 5 (.poll false false))
  ∧ (start_polling_run initLoopState
      (List.replicate 4 (.poll false false))).is_running = true := by
  refine ⟨by decide, ?_, by decide⟩
  unfold start_polling_run
  rw [List.foldl_append]
  exact start_polling_run_stopped rest _ (by decide)

/-- C6.  A poll cycle whose handler callbacks raise still reports
success: every non-skipped message of the batch is attempted in order
(the per-message `except` keeps the loop going), `poll` returns `True`,
and the ensuing loop step performs no backoff wait, no reconnect, and no
state change besides resetting the failure streak. -/
theorem handler_errors_not_transport (msgs : List Nat)
    (isProcessed : Nat → Bool) (handler : Nat → Except Unit Unit)
    (s : LoopState) (r : Bool) :
    (pollOnce (some msgs) isProcessed handler).1 = true
  ∧ (pollBatch isProcessed handler msgs).map Prod.fst
      = msgs.filter (fun m => !(isProcessed m))
  ∧ (loopStep s (.poll true r)).waits = s.waits
  ∧ (loopStep s (.poll true r)).reconnects = s.reconnects
  ∧ (loopStep s (.poll true r)).is_running = s.is_running := by
  refine ⟨rfl, pollBatch_visits isProcessed handler msgs, ?_, ?_, ?_⟩ <;>
    by_cases hr : s.is_running = false <;>
    by_cases hf : s.consecutive_failures > 0 <;>
    simp [loopStep, hr, hf]

/-- C10.  The transport `except` clause catches exactly the four listed
exception classes; those make `get_unread_emails` return `None` and the
poll report failure, which costs one backoff wait and one reconnect
attempt in the loop; every other exception, and a non-OK search status,
produce the empty list, which `poll` treats exactly like a quiet inbox:
a successful cycle. -/
theorem transport_error_classification (e : PyExc) (ids : List Nat)
    (isProcessed : Nat → Bool) (handler : Nat → Except Unit Unit)
    (s : LoopState) (rc : Bool) :
    (isTransportExc e = true
      ↔ (e = .sslError ∨ e = .imap4Abort ∨ e = .connErr ∨ e = .osErr))
  ∧ (isTransportExc e = true → get_unread_emails (.raise e) = none
      ∧ (pollOnce (get_unread_emails (.raise e)) isProcessed handler).1 = false)
  ∧ (isTransportExc e = false → get_unread_emails (.raise e) = some []
      ∧ pollOnce (get_unread_emails (.raise e)) isProcessed handler
          = pollOnce (some []) isProcessed handler)
  ∧ get_unread_emails (.search false ids) = some []
  ∧ pollOnce (some []) isProcessed handler = (true, [])
  ∧ (s.is_running = true →
      (loopStep s (.poll false rc)).reconnects = s.reconnects + 1
        ∧ (loopStep s (.poll false rc)).waits = s.waits ++ [s.retry_delay]) := by
  refine ⟨?_, ?_, ?_, rfl, rfl, ?_⟩
  · cases e <;> decide
  · intro ht
    cases e <;> simp [isTransportExc] at ht <;>
      simp [get_unread_emails, pollOnce, isTransportExc]
  · intro ht
    cases e <;> simp [isTransportExc] at ht <;>
      simp [get_unread_emails, pollOnce, isTransportExc]
  · intro hr
    cases rc <;>
      by_cases hf : s.consecutive_failures + 1 ≥ 5 <;>
      simp [loopStep, hr, hf]

/-- Witness for the C10 theorem at an SSL error, a plain handler, and a
fresh loop state. -/
theorem transport_error_classification_witness :
    get_unread_emails (.raise .sslError) = none
  ∧ (pollOnce (get_unread_emails (.raise .sslError))
      (fun _ => false) (fun _ => .ok ())).1 = false
  ∧ get_unread_emails (.raise .otherExc) = some []
  ∧ (loopStep initLoopState (.poll false false)).reconnects
      = initLoopState.reconnects + 1
  ∧ (loopStep initLoopState (.poll false false)).waits
      = initLoopState.waits ++ [initLoopState.retry_delay] := by
  have h := transport_error_classification .sslError []
    (fun _ => false) (fun _ => .ok ()) initLoopState false
  have h2 := transport_error_classification .otherExc []
    (fun _ => false) (fun _ => .ok ()) initLoopState false
  exact ⟨(h.2.1 rfl).1, (h.2.1 rfl).2, (h2.2.2.1 rfl).1,
    (h.2.2.2.2.2 rfl).1, (h.2.2.2.2.2 rfl).2⟩

/-- C3 counterexample.  One item is submitted to a started queue, then
`stop` runs before the worker dequeues it.  `stop` flips `running` first
and only then joins, and the worker loop re-checks `running` before each
dequeue, so the remaining item is never drained no matter how large the
join timeout is: the counters sum to 0, not 1, and the queue size is 1,
not 0. -/
theorem queue_drain_counterexample :
    (qrun (qInit [true]) [.stop]).total_processed
      + (qrun (qInit [true]) [.stop]).total_errors = 0
  ∧ (qrun (qInit [true]) [.stop]).pending.length = 1
  ∧ ∀ more : List QAct, qrun (qrun (qInit [true]) [.stop]) more
      = qrun (qInit [true]) [.stop] := by
  refine ⟨by decide, by decide, ?_⟩
  intro more
  exact qrun_stopped more _ (by decide)

/-- C3 (amended).  Every submitted item is handled at most once: along
any schedule, `total_processed + total_errors + queue_size` equals the
number of submitted items, so the counters sum to N exactly when the
queue has drained to 0.  Once the stop signal is set the state is final —
in-flight accounting is complete and no further item is drained.  When
the worker processes all N items before `stop`, the counters sum to N
with the queue empty, as in the 3-item run shown. -/
theorem queue_stop_semantics (items : List Bool) (acts more : List QAct)
    (h : (qrun (qInit items) acts).running = false) :
    (qrun (qInit items) acts).total_processed
        + (qrun (qInit items) acts).total_errors
        + (qrun (qInit items) acts).pending.length = items.length
  ∧ qrun (qrun (qInit items) acts) more = qrun (qInit items) acts
  ∧ (qrun (qInit [true, false, true]) [.tick, .tick, .tick, .stop]).total_processed = 2
  ∧ (qrun (qInit [true, false, true]) [.tick, .tick, .tick, .stop]).total_errors = 1
  ∧ (qrun (qInit [true, false, true]) [.tick, .tick, .tick, .stop]).pending.length = 0 := by
  refine ⟨?_, qrun_stopped more _ h, by decide, by decide, by decide⟩
  have hc := qrun_conserve acts (qInit items)
  simpa [qInit] using hc

/-- Witness for the amended C3 theorem: one item, stopped immediately,
then two further worker passes. -/
theorem queue_stop_semantics_witness :
    (qrun (qInit [true]) [.stop]).total_processed
        + (qrun (qInit [true]) [.stop]).total_errors
        + (qrun (qInit [true]) [.stop]).pending.length = 1
  ∧ qrun (qrun (qInit [true]) [.stop]) [.tick, .tick] = qrun (qInit [true]) [.stop]
  ∧ (qrun (qInit [true, false, true]) [.tick, .tick, .tick, .stop]).total_processed = 2
  ∧ (qrun (qInit [true, false, true]) [.tick, .tick, .tick, .stop]).total_errors = 1
  ∧ (qrun (qInit [true, false, true]) [.tick, .tick, .tick, .stop]).pending.length = 0 :=
  queue_stop_semantics [true] [.stop] [.tick, .tick] (by decide)

/-- C2.  With the default two retries, a backend that fails to parse
twice and parses on the third attempt yields the parsed value after
exactly 3 backend calls, not the fallback; a backend that never parses
yields, without raising, the keyword fallback after exactly 3 calls, with
the shapes chosen first-match-wins in the fixed order intent/classify,
due_date/assignment, note, query, then the generic parsing_failed shape
(so due_date beats note, and intent beats query, as the last two
evaluations show). -/
theorem retry_then_fallback :
    (∀ (resp : Nat → Option JVal) (v : JVal) (sys user : String),
      resp 0 = none → resp 1 = none → resp 2 = some v →
        generate_json resp sys user 2 = (v, 3))
  ∧ (∀ (resp : Nat → Option JVal) (sys user : String), (∀ n, resp n = none) →
        generate_json resp sys user 2 = (get_fallback_structure sys user, 3))
  ∧ get_fallback_structure "" "classify this text"
      = .obj [("intent", .str "GENERAL"), ("confidence", .num (3/10)),
              ("reasoning", .str "Fallback - model failed to classify")]
  ∧ get_fallback_structure "" "assignment details here"
      = .obj [("class_name", .null), ("due_date", .null),
              ("title", .str "Untitled Assignment"), ("description", .null),
              ("priority", .str "medium")]
  ∧ get_fallback_structure "" "make a note of this"
      = .obj [("class_name", .null), ("content", .str "make a note of this"),
              ("note_type", .str "general"), ("tags", .arr [])]
  ∧ get_fallback_structure "" "run a query now"
      = .obj [("query_type", .str "general"), ("search_term", .str ""),
              ("filters", .obj [])]
  ∧ get_fallback_structure "" "hello there"
      = .obj [("error", .str "parsing_failed"), ("raw_prompt", .str "hello there")]
  ∧ get_fallback_structure "" "a note with due_date"
      = .obj [("class_name", .null), ("due_date", .null),
              ("title", .str "Untitled Assignment"), ("description", .null),
              ("priority", .str "medium")]
  ∧ get_fallback_structure "" "query with intent"
      = .obj [("intent", .str "GENERAL"), ("confidence", .num (3/10)),
              ("reasoning", .str "Fallback - model failed to classify")] := by
  refine ⟨?_, ?_, rfl, rfl, rfl, rfl, rfl, rfl, rfl⟩
  · intro resp v sys user h0 h1 h2
    simp [generate_json, generate_json_go, h0, h1, h2]
  · intro resp sys user h
    exact generate_json_all_fail resp sys user 2 h

/-- Witness for the C2 theorem: a stub succeeding on the third call, and
an always-failing stub. -/
theorem retry_then_fallback_witness :
    generate_json (fun i => if i = 2 then some (.bool true) else none) "sys" "user" 2
      = (.bool true, 3)
  ∧ generate_json (fun _ => none) "" "hello there" 2
      = (get_fallback_structure "" "hello there", 3) :=
  ⟨retry_then_fallback.1 (fun i => if i = 2 then some (.bool true) else none)
      (.bool true) "sys" "user" rfl rfl rfl,
   retry_then_fallback.2.1 (fun _ => none) "" "hello there" (fun _ => rfl)⟩

/-- C8 counterexample.  The claim fixes the classification fallback at
confidence 0.5 with reasoning "classification failed" on every failure
path.  On the exception path the code returns reasoning "Failed to
classify, defaulting to GENERAL" (not "classification failed"), and on
the parse-failure path (the local generator exhausting its retries on the
classification prompt) the returned fallback carries confidence 0.3, not
0.5. -/
theorem classification_fallback_counterexample :
    pyItem (classify_intent (.error ())) "reasoning"
      = .ok (.str "Failed to classify, defaulting to GENERAL")
  ∧ ("Failed to classify, defaulting to GENERAL" ≠ "classification failed")
  ∧ pyItem (classify_intent (.ok (generate_json (fun _ => none)
      jarvisSystemPrompt (formatIntentPrompt "Hi" "see the attached file") 2).1))
      "confidence" = .ok (.num (3/10))
  ∧ ((3 : ℚ)/10 ≠ 1/2) := by
  refine ⟨rfl, by decide, ?_, by norm_num⟩
  have h1 := generate_json_all_fail (fun _ => none) jarvisSystemPrompt
    (formatIntentPrompt "Hi" "see the attached file") 2 (fun _ => rfl)
  rw [h1]
  rw [fallback_intent_shape "Hi" "see the attached file"]
  rfl

/-- C8 (amended).  Both classification failure paths fall back to intent
GENERAL, but with different payloads: an exception from the generation
call yields confidence 0.5 and reasoning "Failed to classify, defaulting
to GENERAL", while unparseable output under the local generator yields
its keyword fallback with confidence 0.3 and reasoning "Fallback - model
failed to classify", for every subject and body. -/
theorem classification_fallback (subject body : String)
    (resp : Nat → Option JVal) (h : ∀ n, resp n = none) :
    classify_intent (.error ())
      = .obj [("intent", .str "GENERAL"), ("confidence", .num (1/2)),
              ("reasoning", .str "Failed to classify, defaulting to GENERAL")]
  ∧ classify_intent (.ok (generate_json resp jarvisSystemPrompt
        (formatIntentPrompt subject body) 2).1)
      = .obj [("intent", .str "GENERAL"), ("confidence", .num (3/10)),
              ("reasoning", .str "Fallback - model failed to classify")]
  ∧ pyItem (classify_intent (.error ())) "intent" = .ok (.str "GENERAL") := by
  refine ⟨rfl, ?_, rfl⟩
  have h1 := generate_json_all_fail resp jarvisSystemPrompt
    (formatIntentPrompt subject body) 2 h
  rw [h1]
  rw [fallback_intent_shape subject body]
  rfl

/-- Witness for the amended C8 theorem on a concrete email. -/
theorem classification_fallback_witness :
    classify_intent (.error ())
      = .obj [("intent", .str "GENERAL"), ("confidence", .num (1/2)),
              ("reasoning", .str "Failed to classify, defaulting to GENERAL")]
  ∧ classify_intent (.ok (generate_json (fun _ => none) jarvisSystemPrompt
        (formatIntentPrompt "Exam" "when is it") 2).1)
      = .obj [("intent", .str "GENERAL"), ("confidence", .num (3/10)),
              ("reasoning", .str "Fallback - model failed to classify")]
  ∧ pyItem (classify_intent (.error ())) "intent" = .ok (.str "GENERAL") :=
  classification_fallback "Exam" "when is it" (fun _ => none) (fun _ => rfl)

/-- C5 counterexample.  A backend whose classification call returns
parseable JSON without an `intent` entry (here the empty object) makes
`process_email` raise `KeyError` at the intent subscript of the
classification result: the caller gets an exception, not a result with a message. -/
theorem pipeline_message_counterexample :
    process_email { beAllRaise with clsOut := .ok (.obj []) } dbEmpty peSimple
      = .error (.keyError "intent") := rfl

/-- C5 (amended).  `process_email` returns a result dictionary carrying a
message string for every email, every store, and every backend behaviour
in which each structured-generation call either raises (engaging the
hand-written fallbacks) or returns a dictionary of the shape the pipeline
reads: an `intent` entry plus numeric `confidence` for classification, a
`title` entry when a parseable due date will be persisted, a string (or
absent) `content` for notes, and a `query_type` with the entries its
branch subscripts for queries.  Outside these shapes the pipeline can
raise, as the counterexample shows. -/
theorem pipeline_message_guarantee (be : Backend) (db : Db) (pe : ParsedEmail)
    (hc : ClsOk be.clsOut) (ha : AsgOk be) (hn : NoteOk be.noteOut)
    (hq : QryOk be.qryOut) :
    ∃ fields effs m, process_email be db pe = .ok (.obj fields, effs) ∧
      jlookup fields "message" = some (.str m) :=
  process_email_msg be db pe hc ha hn hq

/-- Witness for the amended C5 theorem: all four generation calls raise. -/
theorem pipeline_message_guarantee_witness :
    ∃ fields effs m, process_email beAllRaise dbEmpty peSimple
        = .ok (.obj fields, effs) ∧
      jlookup fields "message" = some (.str m) :=
  pipeline_message_guarantee beAllRaise dbEmpty peSimple
    (Or.inl rfl) (Or.inl rfl) (Or.inl rfl) (Or.inl rfl)

/-- C7.  Whenever the extracted due date is missing, null, empty, or a
string rejected by the ISO-8601 parser (including the case where the
extraction call itself raised and the fallback carries a null due date),
`process_assignment` returns normally with `success: false`, the error
code `no_due_date` or `invalid_due_date`, and a user-facing message, and
records no persistence effect: no class and no assignment is created. -/
theorem assignment_due_date_validation (be : Backend) (pe : ParsedEmail)
    (fs : List (String × JVal)) :
    (be.asgOut = .error () → process_assignment be pe = .ok (noDueDateResult, []))
  ∧ (be.asgOut = .ok (.obj fs) → jlookup fs "due_date" = none →
      process_assignment be pe = .ok (noDueDateResult, []))
  ∧ (be.asgOut = .ok (.obj fs) → jlookup fs "due_date" = some .null →
      process_assignment be pe = .ok (noDueDateResult, []))
  ∧ (be.asgOut = .ok (.obj fs) → jlookup fs "due_date" = some (.str "") →
      process_assignment be pe = .ok (noDueDateResult, []))
  ∧ (∀ s : String, s ≠ "" → be.asgOut = .ok (.obj fs) →
      jlookup fs "due_date" = some (.str s) → be.parseIso s = none →
      process_assignment be pe = .ok (invalidDueDateResult, []))
  ∧ pyItem noDueDateResult "success" = .ok (.bool false)
  ∧ pyItem noDueDateResult "error" = .ok (.str "no_due_date")
  ∧ (∃ m, pyItem noDueDateResult "message" = .ok (.str m))
  ∧ pyItem invalidDueDateResult "success" = .ok (.bool false)
  ∧ pyItem invalidDueDateResult "error" = .ok (.str "invalid_due_date")
  ∧ (∃ m, pyItem invalidDueDateResult "message" = .ok (.str m)) := by
  refine ⟨?_, ?_, ?_, ?_, ?_, rfl, rfl, ⟨_, rfl⟩, rfl, rfl, ⟨_, rfl⟩⟩
  · intro h
    exact process_assignment_raise be pe h
  · intro hout hdd
    exact process_assignment_falsy_due be pe fs hout (by simp [hdd, truthy])
  · intro hout hdd
    exact process_assignment_falsy_due be pe fs hout (by simp [hdd, truthy])
  · intro hout hdd
    exact process_assignment_falsy_due be pe fs hout (by simp [hdd, truthy])
  · intro s hs hout hdd hp
    refine process_assignment_bad_due be pe fs (.str s) hout hdd ?_ ?_
    · simp [truthy, hs]
    · simpa using hp

/-- Witness for the C7 theorem: extraction returns an unparseable string
due date. -/
theorem assignment_due_date_validation_witness :
    process_assignment
      { beAllRaise with asgOut := .ok (.obj [("due_date", .str "junk")]) }
      peSimple = .ok (invalidDueDateResult, []) := by
  have h := assignment_due_date_validation
    { beAllRaise with asgOut := .ok (.obj [("due_date", .str "junk")]) }
    peSimple [("due_date", .str "junk")]
  exact h.2.2.2.2.1 "junk" (by decide) rfl rfl rfl

/-- C9.  The named time filter of an `assignments_due` query maps to the
lookahead window used for `Assignments.get_upcoming` exactly as the
inline conditional chain in `process_query` does: today and tomorrow give
1 day, this_week 7, next_week 14, and every other value — including the
string "all", null, and any non-string value — gives 30. -/
theorem time_filter_window :
    lookaheadDays (.str "today") = 1
  ∧ lookaheadDays (.str "tomorrow") = 1
  ∧ lookaheadDays (.str "this_week") = 7
  ∧ lookaheadDays (.str "next_week") = 14
  ∧ lookaheadDays (.str "all") = 30
  ∧ lookaheadDays .null = 30
  ∧ (∀ s : String, s ≠ "today" → s ≠ "tomorrow" → s ≠ "this_week" →
      s ≠ "next_week" → lookaheadDays (.str s) = 30)
  ∧ (∀ v : JVal, (∀ s, v ≠ .str s) → lookaheadDays v = 30) := by
  refine ⟨rfl, rfl, rfl, rfl, rfl, rfl, ?_, ?_⟩
  · intro s h1 h2 h3 h4
    simp [lookaheadDays, jeqStr, h1, h2, h3, h4]
  · intro v hv
    cases v with
    | str s => exact absurd rfl (hv s)
    | null => rfl
    | bool b => rfl
    | num q => rfl
    | arr xs => rfl
    | obj fields => rfl

/-- Witness for the C9 theorem at an unrecognized filter string and a
non-string filter. -/
theorem time_filter_window_witness :
    lookaheadDays (.str "someday") = 30 ∧ lookaheadDays (.arr []) = 30 :=
  ⟨time_filter_window.2.2.2.2.2.2.1 "someday"
      (by decide) (by decide) (by decide) (by decide),
   time_filter_window.2.2.2.2.2.2.2 (.arr []) (fun s h => JVal.noConfusion h)⟩
